import Mathlib

/-!
Verification of the SPICE spectral-surrogate core.

The repository has two near-duplicate modules, `spice/spectra.py` and
`spectrum_integrator/spectrum_mlp.py`.  Both scale stellar parameters to
the unit interval, encode a log-wavelength by sinusoidal features, and
evaluate a pretrained feed-forward network over batches built with
`vmap`.  The network weights live in an external binary blob, so the
trained network itself is abstracted here as a function
`net : List ℝ → ℝ → ℝ` taking the 12 scaled parameters and one
log-wavelength to one flux value; every batching wrapper is embedded
over that abstract single-sample function, mirroring how the source
composes `vmap` around `model.apply`.  JAX arrays are embedded as Lean
lists, `vmap` over one axis as `List.map`, and `vmap` zipping two axes
of equal length as `List.zipWith`.  Machine floats are embedded as real
numbers.
-/

open Real

noncomputable section

/-- Speed of light in km/s, constant `c` of both modules. -/
def c : ℝ := 299792.458

/-- The recognized element symbols, list `OVERABUNDANCES` of both modules
(Mn, Fe, Si, Ca, C, N, O, Hg in this order). -/
def OVERABUNDANCES : List String := ["Mn", "Fe", "Si", "Ca", "C", "N", "O", "Hg"]

/-- Embedding of `scale_spectra_parameters`: maps the 12 physical
parameters componentwise through (raw - min)/(max - min) with the fixed
bounds tables `min_p` and `max_p` of the source, returning the 12 scaled
values as a list (the source returns them as a tuple). -/
def scale_spectra_parameters (log_teff logg vmic me a_Mn a_Fe a_Si a_Ca a_C a_N a_O a_Hg : ℝ) :
    List ℝ :=
  let min_p : List ℝ := [3.845098, 3.5, 0.0, -1.0, -3.0, -3.0, -3.0, -3.0, -3.0, -3.0, -3.0, -3.0]
  let max_p : List ℝ := [3.929419, 5.0, 10.0, 0.0, 3.0, 3.0, 3.0, 3.0, 3.0, 3.0, 3.0, 3.0]
  [(log_teff - min_p.getD 0 0) / (max_p.getD 0 0 - min_p.getD 0 0),
   (logg - min_p.getD 1 0) / (max_p.getD 1 0 - min_p.getD 1 0),
   (vmic - min_p.getD 2 0) / (max_p.getD 2 0 - min_p.getD 2 0),
   (me - min_p.getD 3 0) / (max_p.getD 3 0 - min_p.getD 3 0),
   (a_Mn - min_p.getD 4 0) / (max_p.getD 4 0 - min_p.getD 4 0),
   (a_Fe - min_p.getD 5 0) / (max_p.getD 5 0 - min_p.getD 5 0),
   (a_Si - min_p.getD 6 0) / (max_p.getD 6 0 - min_p.getD 6 0),
   (a_Ca - min_p.getD 7 0) / (max_p.getD 7 0 - min_p.getD 7 0),
   (a_C - min_p.getD 8 0) / (max_p.getD 8 0 - min_p.getD 8 0),
   (a_N - min_p.getD 9 0) / (max_p.getD 9 0 - min_p.getD 9 0),
   (a_O - min_p.getD 10 0) / (max_p.getD 10 0 - min_p.getD 10 0),
   (a_Hg - min_p.getD 11 0) / (max_p.getD 11 0 - min_p.getD 11 0)]

/-- Embedding of `generate_spectrum_overabundance_params`.  The source
raises `ValueError` listing the valid symbols when `element` is not in
`OVERABUNDANCES`; the fallible call is embedded as `Except`, with the
enumerated valid-symbol set as the structured error value.  Otherwise it
builds `jnp.zeros(8).at[element_index].set(abundance)` and splats it
after `(log10 teff, logg, vmic, me)` into the scaler. -/
def generate_spectrum_overabundance_params (teff logg vmic me abundance : ℝ)
    (element : String) : Except (List String) (List ℝ) :=
  if element ∈ OVERABUNDANCES then
    let element_index : ℕ := OVERABUNDANCES.indexOf element
    let input_params : List ℝ := (List.replicate 8 (0 : ℝ)).set element_index abundance
    Except.ok (scale_spectra_parameters (Real.logb 10 teff) logg vmic me
      (input_params.getD 0 0) (input_params.getD 1 0) (input_params.getD 2 0)
      (input_params.getD 3 0) (input_params.getD 4 0) (input_params.getD 5 0)
      (input_params.getD 6 0) (input_params.getD 7 0))
  else
    Except.error OVERABUNDANCES

/-- Spec-side description of the 8-slot abundance vector: the given
abundance at the selected element's index and zero at every other slot. -/
def slotVal (element : String) (abundance : ℝ) (j : ℕ) : ℝ :=
  if OVERABUNDANCES.indexOf element = j then abundance else 0

/-- Embedding of `jnp.linspace(start, stop, num)`: num evenly spaced
points including both endpoints, point k at start + k*(stop-start)/(num-1)
(for num = 1 the quotient is 0/0 = 0 and the single point is start,
matching `jnp.linspace` with one point). -/
def linspaceList (start stop : ℝ) (num : ℕ) : List ℝ :=
  (List.range num).map (fun k : ℕ => start + (k : ℝ) * (stop - start) / ((num : ℝ) - 1))

/-- Embedding of the period table of `frequency_encoding`:
`jnp.logspace(log10 min_period, log10 max_period, num=dimension)`, i.e.
10 raised to each point of the linearly spaced grid of base-10 logs. -/
def frequencyPeriods (min_period max_period : ℝ) (dimension : ℕ) : List ℝ :=
  (linspaceList (Real.logb 10 min_period) (Real.logb 10 max_period) dimension).map
    (fun e => (10 : ℝ) ^ e)

/-- Embedding of `frequency_encoding(x, min_period, max_period, dimension)`:
`jnp.sin(2*jnp.pi/periods*x)` over the logspace period table. -/
def frequency_encoding (x min_period max_period : ℝ) (dimension : ℕ) : List ℝ :=
  (frequencyPeriods min_period max_period dimension).map
    (fun p => Real.sin (2 * Real.pi / p * x))

/-- Additive log-space Doppler shift used by
`predict_spectrum_with_rot_velocity`: `log_wave + jnp.log10(1+rot_vel/c)`. -/
def logDopplerShift (rot_vel log_wave : ℝ) : ℝ :=
  log_wave + Real.logb 10 (1 + rot_vel / c)

namespace Spice

/-- Embedding of `__predict_spectrum` of `spice/spectra.py`:
`vmap(model.apply, in_axes=(None, 0))` maps the network over the
log-wavelength axis with the parameters held fixed.  The trained network
is the abstract argument `net`. -/
def predictSpectrumCore (net : List ℝ → ℝ → ℝ) (spectrum_parameters : List ℝ)
    (log_wavelengths : List ℝ) : List ℝ :=
  log_wavelengths.map (net spectrum_parameters)

/-- Embedding of `predict_spectrum` of `spice/spectra.py`:
`__predict_spectrum(spectrum_parameters, jnp.log10(wavelengths)).flatten()`;
the caller passes linear angstrom wavelengths and the entry point takes
their base-10 logs before the network sees them. -/
def predict_spectrum (net : List ℝ → ℝ → ℝ) (spectrum_parameters : List ℝ)
    (wavelengths : List ℝ) : List ℝ :=
  predictSpectrumCore net spectrum_parameters (wavelengths.map (Real.logb 10))

/-- Embedding of `predict_spectra` of `spice/spectra.py`:
`jit(vmap(predict_spectrum, in_axes=(0, 0)))`.  Both arguments are
batched along axis 0, so the wavelengths argument is one grid per
parameter set, consumed in lockstep — embedded as `List.zipWith`. -/
def predict_spectra (net : List ℝ → ℝ → ℝ) (spectrum_parameters : List (List ℝ))
    (wavelengths : List (List ℝ)) : List (List ℝ) :=
  List.zipWith (fun p ws => predict_spectrum net p ws) spectrum_parameters wavelengths

/-- Embedding of `redshift_wavelengths` of `spice/spectra.py`:
`wavelengths*(1+radial_velocity/c)` (broadcast over the array). -/
def redshift_wavelengths (wavelengths : List ℝ) (radial_velocity : ℝ) : List ℝ :=
  wavelengths.map (fun w => w * (1 + radial_velocity / c))

end Spice

namespace SpecMLP

/-- Embedding of `predict_spectrum` of `spectrum_integrator/spectrum_mlp.py`:
`jit(vmap(model.apply, in_axes=(None, 0)))` applied directly to the
caller's log-wavelength array — unlike the `spice` module there is no
`jnp.log10` here, the caller supplies log-wavelengths. -/
def predict_spectrum (net : List ℝ → ℝ → ℝ) (spectrum_parameters : List ℝ)
    (log_wavelengths : List ℝ) : List ℝ :=
  log_wavelengths.map (net spectrum_parameters)

/-- Embedding of `predict_spectra` of `spectrum_integrator/spectrum_mlp.py`:
`jit(vmap(predict_spectrum, in_axes=(0, None), out_axes=0))` — the
parameter sets are batched, the wavelength grid is shared. -/
def predict_spectra (net : List ℝ → ℝ → ℝ) (spectrum_parameters : List (List ℝ))
    (log_wavelengths : List ℝ) : List (List ℝ) :=
  spectrum_parameters.map (fun p => predict_spectrum net p log_wavelengths)

/-- Embedding of `predict_spectrum_with_rot_velocity`:
`predict_spectrum(params, log_wave+jnp.log10(1+rot_vel/c))` — the scalar
log-shift broadcast over the grid, then the velocity-free predictor. -/
def predict_spectrum_with_rot_velocity (net : List ℝ → ℝ → ℝ) (params : List ℝ)
    (log_wave : List ℝ) (rot_vel : ℝ) : List ℝ :=
  predict_spectrum net params (log_wave.map (logDopplerShift rot_vel))

/-- Embedding of `predict_spectra_with_rot_velocity`:
`jit(vmap(predict_spectrum_with_rot_velocity, in_axes=(0, None, 0)))` —
parameter sets and velocities batched in lockstep, grid shared. -/
def predict_spectra_with_rot_velocity (net : List ℝ → ℝ → ℝ)
    (params : List (List ℝ)) (log_wave : List ℝ) (rot_vels : List ℝ) :
    List (List ℝ) :=
  List.zipWith (fun p rv => predict_spectrum_with_rot_velocity net p log_wave rv)
    params rot_vels

/-- Embedding of `spectra_prediction_function(wave_min, wave_max, wave_points)`:
fixes the log-uniform grid `jnp.linspace(log10 wave_min, log10 wave_max, wave_points)`
and returns the closure computing
`(1-predict_spectra_with_rot_velocity(parameters, log_wave, rotation_map)).reshape((-1, wave_points))`;
the rows already have length `wave_points`, so the reshape is the
identity on the row structure and the embedding is the elementwise
complement of each row. -/
def spectra_prediction_function (net : List ℝ → ℝ → ℝ) (wave_min wave_max : ℝ)
    (wave_points : ℕ) : List (List ℝ) → List ℝ → List (List ℝ) :=
  let log_wave := linspaceList (Real.logb 10 wave_min) (Real.logb 10 wave_max) wave_points
  fun parameters rotation_map =>
    (predict_spectra_with_rot_velocity net parameters log_wave rotation_map).map
      (fun row => row.map (fun y => 1 - y))

end SpecMLP

/-- Concrete stand-in network used only in counterexamples about the
batching and wavelength-handling wrappers: it returns the log-wavelength
input itself, so it separates code paths that transform the wavelength
axis differently. -/
def netProj : List ℝ → ℝ → ℝ := fun _ w => w

/-- C5: for every 12-tuple of input reals, `scale_spectra_parameters`
returns componentwise (raw - min)/(max - min) with the fixed bounds
table ((3.845098, 3.929419), (3.5, 5.0), (0.0, 10.0), (-1.0, 0.0) and
(-3.0, 3.0) for the eight abundance slots), with no clamping of
out-of-range inputs; consequently scaling the 12 min bounds yields
exactly 0 in every component and the 12 max bounds exactly 1. -/
theorem scale_spectra_parameters_spec :
    (∀ x0 x1 x2 x3 x4 x5 x6 x7 x8 x9 x10 x11 : ℝ,
      scale_spectra_parameters x0 x1 x2 x3 x4 x5 x6 x7 x8 x9 x10 x11 =
        [(x0 - 3.845098) / (3.929419 - 3.845098),
         (x1 - 3.5) / (5.0 - 3.5),
         (x2 - 0.0) / (10.0 - 0.0),
         (x3 - (-1.0)) / (0.0 - (-1.0)),
         (x4 - (-3.0)) / (3.0 - (-3.0)),
         (x5 - (-3.0)) / (3.0 - (-3.0)),
         (x6 - (-3.0)) / (3.0 - (-3.0)),
         (x7 - (-3.0)) / (3.0 - (-3.0)),
         (x8 - (-3.0)) / (3.0 - (-3.0)),
         (x9 - (-3.0)) / (3.0 - (-3.0)),
         (x10 - (-3.0)) / (3.0 - (-3.0)),
         (x11 - (-3.0)) / (3.0 - (-3.0))]) ∧
    scale_spectra_parameters 3.845098 3.5 0.0 (-1.0) (-3.0) (-3.0) (-3.0)
        (-3.0) (-3.0) (-3.0) (-3.0) (-3.0) =
      [0, 0, 0, 0, 0, 0, 0, 0, 0, 0, 0, 0] ∧
    scale_spectra_parameters 3.929419 5.0 10.0 0.0 3.0 3.0 3.0 3.0 3.0 3.0
        3.0 3.0 =
      [1, 1, 1, 1, 1, 1, 1, 1, 1, 1, 1, 1] := by
  refine ⟨fun x0 x1 x2 x3 x4 x5 x6 x7 x8 x9 x10 x11 => ?_, ?_, ?_⟩ <;>
    norm_num [scale_spectra_parameters]

/-- Helper shared by the overabundance-encoder claims: for a recognized
element the encoder succeeds and the 8 abundance arguments handed to the
scaler are the selected abundance at the element's index and zero at the
other seven slots. -/
lemma generate_ok_of_mem (teff logg vmic me ab : ℝ) (e : String)
    (h : e ∈ OVERABUNDANCES) :
    generate_spectrum_overabundance_params teff logg vmic me ab e =
      Except.ok (scale_spectra_parameters (Real.logb 10 teff) logg vmic me
        (slotVal e ab 0) (slotVal e ab 1) (slotVal e ab 2) (slotVal e ab 3)
        (slotVal e ab 4) (slotVal e ab 5) (slotVal e ab 6) (slotVal e ab 7)) := by
  fin_cases h <;> rfl

/-- C3: for every input and recognized element symbol,
`generate_spectrum_overabundance_params` applies the scaler to the
12-vector (log10 teff, logg, vmic, metallicity, a_0..a_7) whose 8-slot
abundance part holds the given abundance at the element's fixed index
and zero elsewhere, with the fixed indices Mn=0, Fe=1, Si=2, Ca=3, C=4,
N=5, O=6, Hg=7. -/
theorem generate_overabundance_params_spec (teff logg vmic me ab : ℝ)
    (e : String) (h : e ∈ OVERABUNDANCES) :
    generate_spectrum_overabundance_params teff logg vmic me ab e =
      Except.ok (scale_spectra_parameters (Real.logb 10 teff) logg vmic me
        (slotVal e ab 0) (slotVal e ab 1) (slotVal e ab 2) (slotVal e ab 3)
        (slotVal e ab 4) (slotVal e ab 5) (slotVal e ab 6) (slotVal e ab 7)) ∧
    OVERABUNDANCES.indexOf "Mn" = 0 ∧ OVERABUNDANCES.indexOf "Fe" = 1 ∧
    OVERABUNDANCES.indexOf "Si" = 2 ∧ OVERABUNDANCES.indexOf "Ca" = 3 ∧
    OVERABUNDANCES.indexOf "C" = 4 ∧ OVERABUNDANCES.indexOf "N" = 5 ∧
    OVERABUNDANCES.indexOf "O" = 6 ∧ OVERABUNDANCES.indexOf "Hg" = 7 :=
  ⟨generate_ok_of_mem teff logg vmic me ab e h, by decide, by decide, by decide,
   by decide, by decide, by decide, by decide, by decide⟩

/-- C3 witness: instantiation at teff=7500, logg=4, vmic=2, me=-1/2,
element Fe with abundance 2; the pre-scaling abundance slots are
slotVal applied at Fe, i.e. 2 at index 1 and 0 elsewhere. -/
theorem generate_overabundance_params_spec_witness :
    ("Fe" ∈ OVERABUNDANCES) ∧
    (generate_spectrum_overabundance_params 7500 4 2 (-1/2) 2 "Fe" =
      Except.ok (scale_spectra_parameters (Real.logb 10 7500) 4 2 (-1/2)
        (slotVal "Fe" 2 0) (slotVal "Fe" 2 1) (slotVal "Fe" 2 2)
        (slotVal "Fe" 2 3) (slotVal "Fe" 2 4) (slotVal "Fe" 2 5)
        (slotVal "Fe" 2 6) (slotVal "Fe" 2 7)) ∧
      OVERABUNDANCES.indexOf "Mn" = 0 ∧ OVERABUNDANCES.indexOf "Fe" = 1 ∧
      OVERABUNDANCES.indexOf "Si" = 2 ∧ OVERABUNDANCES.indexOf "Ca" = 3 ∧
      OVERABUNDANCES.indexOf "C" = 4 ∧ OVERABUNDANCES.indexOf "N" = 5 ∧
      OVERABUNDANCES.indexOf "O" = 6 ∧ OVERABUNDANCES.indexOf "Hg" = 7) :=
  ⟨by decide, generate_overabundance_params_spec 7500 4 2 (-1/2) 2 "Fe" (by decide)⟩

/-- C4: for every element symbol outside the recognized set the encoder
fails for all numeric inputs with an invalid-argument error carrying the
enumerated valid symbol set (so no output is produced), and for every
recognized symbol it succeeds. -/
theorem generate_overabundance_params_validation :
    (∀ teff logg vmic me ab : ℝ, ∀ e : String, e ∉ OVERABUNDANCES →
      generate_spectrum_overabundance_params teff logg vmic me ab e =
        Except.error OVERABUNDANCES) ∧
    (∀ teff logg vmic me ab : ℝ, ∀ e : String, e ∈ OVERABUNDANCES →
      (generate_spectrum_overabundance_params teff logg vmic me ab e).isOk = true) := by
  constructor
  · intro teff logg vmic me ab e h
    simp [generate_spectrum_overabundance_params, h]
  · intro teff logg vmic me ab e h
    rw [generate_ok_of_mem teff logg vmic me ab e h]
    rfl

/-- C4 witness: the unrecognized symbol Xx fails with the enumerated
valid set, and the recognized symbol Fe succeeds. -/
theorem generate_overabundance_params_validation_witness :
    (("Xx" ∉ OVERABUNDANCES) ∧
      generate_spectrum_overabundance_params 7500 4 2 (-1/2) 2 "Xx" =
        Except.error OVERABUNDANCES) ∧
    (("Fe" ∈ OVERABUNDANCES) ∧
      (generate_spectrum_overabundance_params 7500 4 2 (-1/2) 2 "Fe").isOk = true) :=
  ⟨⟨by decide,
    generate_overabundance_params_validation.1 7500 4 2 (-1/2) 2 "Xx" (by decide)⟩,
   ⟨by decide,
    generate_overabundance_params_validation.2 7500 4 2 (-1/2) 2 "Fe" (by decide)⟩⟩

/-- C10: for every recognized element and every abundance slot other
than the selected one, the scaled 12-vector holds exactly 1/2 there,
since the pre-scaling zero maps to (0 - (-3))/(3 - (-3)). -/
theorem generate_overabundance_params_unselected_slots (teff logg vmic me ab : ℝ)
    (e : String) (j : ℕ) (he : e ∈ OVERABUNDANCES) (hj : j < 8)
    (hne : j ≠ OVERABUNDANCES.indexOf e) :
    ((generate_spectrum_overabundance_params teff logg vmic me ab e).toOption.getD
      []).getD (4 + j) 0 = 0.5 := by
  rw [generate_ok_of_mem teff logg vmic me ab e he]
  have hne' : ¬ (OVERABUNDANCES.indexOf e = j) := fun hh => hne hh.symm
  interval_cases j <;>
    norm_num [Except.toOption, scale_spectra_parameters, slotVal, hne']

/-- Helper: the k-th element (k < n) of mapping f over `List.range n`. -/
lemma getD_map_range {α : Type} (f : ℕ → α) (d : α) {k n : ℕ} (hk : k < n) :
    ((List.range n).map f).getD k d = f k := by
  rw [List.getD_eq_getElem?_getD, List.getElem?_map, List.getElem?_range hk]
  rfl

/-- C6: with min_period 1e-7, max_period 0.05 and dimension 64,
`frequency_encoding` of a scalar log-wavelength x has exactly 64
components, component k is sin(2*pi*x/period_k) for the 64 periods
spaced log-uniformly between 1e-7 and 0.05 (period_k = 10 raised to
log10(1e-7) + k*(log10(0.05) - log10(1e-7))/63), and every component
lies in the interval from -1 to 1. -/
theorem frequency_encoding_spec (x : ℝ) (k : ℕ) (hk : k < 64) :
    (frequency_encoding x 1e-7 0.05 64).length = 64 ∧
    (frequency_encoding x 1e-7 0.05 64).getD k 0 =
      Real.sin (2 * Real.pi * x /
        ((10 : ℝ) ^ (Real.logb 10 1e-7 +
          (k : ℝ) * (Real.logb 10 0.05 - Real.logb 10 1e-7) / 63))) ∧
    -1 ≤ (frequency_encoding x 1e-7 0.05 64).getD k 0 ∧
    (frequency_encoding x 1e-7 0.05 64).getD k 0 ≤ 1 := by
  have hget : (frequency_encoding x 1e-7 0.05 64).getD k 0 =
      Real.sin (2 * Real.pi * x /
        ((10 : ℝ) ^ (Real.logb 10 1e-7 +
          (k : ℝ) * (Real.logb 10 0.05 - Real.logb 10 1e-7) / 63))) := by
    unfold frequency_encoding frequencyPeriods linspaceList
    rw [List.map_map, List.map_map, getD_map_range _ _ hk]
    have hc : ((64 : ℕ) : ℝ) - 1 = 63 := by norm_num
    simp only [Function.comp_apply, hc]
    congr 1
    ring
  refine ⟨?_, hget, ?_, ?_⟩
  · unfold frequency_encoding frequencyPeriods linspaceList
    simp only [List.length_map, List.length_range]
  · rw [hget]
    exact Real.neg_one_le_sin _
  · rw [hget]
    exact Real.sin_le_one _

/-- C6 witness: instantiation at x = 0 and component k = 0. -/
theorem frequency_encoding_spec_witness :
    (0 < 64) ∧
    ((frequency_encoding 0 1e-7 0.05 64).length = 64 ∧
     (frequency_encoding 0 1e-7 0.05 64).getD 0 0 =
       Real.sin (2 * Real.pi * 0 /
         ((10 : ℝ) ^ (Real.logb 10 1e-7 +
           ((0 : ℕ) : ℝ) * (Real.logb 10 0.05 - Real.logb 10 1e-7) / 63))) ∧
     -1 ≤ (frequency_encoding 0 1e-7 0.05 64).getD 0 0 ∧
     (frequency_encoding 0 1e-7 0.05 64).getD 0 0 ≤ 1) :=
  ⟨by decide, frequency_encoding_spec 0 0 (by decide)⟩

/-- C7: for wavelengths that are all positive and any velocity above -c,
the multiplicative shift of `redshift_wavelengths` and the additive
log-space shift of `predict_spectrum_with_rot_velocity` denote the same
shifted wavelengths: taking base-10 logs of the multiplicatively shifted
grid equals applying the additive log-shift to the logs of the grid,
for blueshift and redshift alike. -/
theorem doppler_shift_paths_agree (ws : List ℝ) (v : ℝ)
    (hw : ∀ w ∈ ws, 0 < w) (hv : -c < v) :
    (Spice.redshift_wavelengths ws v).map (Real.logb 10) =
      (ws.map (Real.logb 10)).map (logDopplerShift v) := by
  have hc : (0 : ℝ) < c := by norm_num [c]
  have h1 : (0 : ℝ) < 1 + v / c := by
    have hvc : -1 < v / c := by
      rw [lt_div_iff₀ hc]
      linarith
    linarith
  unfold Spice.redshift_wavelengths logDopplerShift
  rw [List.map_map, List.map_map]
  refine List.map_congr_left (fun w hwmem => ?_)
  have hwpos := hw w hwmem
  simp only [Function.comp_apply]
  rw [Real.logb_mul (ne_of_gt hwpos) (ne_of_gt h1)]

/-- C7 witness: instantiation at the 4000 angstrom wavelength and a
50 km/s redshift velocity. -/
theorem doppler_shift_paths_agree_witness :
    (∀ w ∈ [(4000 : ℝ)], 0 < w) ∧ (-c < 50) ∧
    (Spice.redshift_wavelengths [(4000 : ℝ)] 50).map (Real.logb 10) =
      ([(4000 : ℝ)].map (Real.logb 10)).map (logDopplerShift 50) :=
  ⟨by norm_num, by norm_num [c],
   doppler_shift_paths_agree [(4000 : ℝ)] 50 (by norm_num) (by norm_num [c])⟩

/-- Helper: the i-th element of a zipWith when i is within both lists. -/
lemma getD_zipWith {α β γ : Type} (f : α → β → γ) (l1 : List α) (l2 : List β)
    (d1 : α) (d2 : β) (d : γ) (i : ℕ) (h1 : i < l1.length) (h2 : i < l2.length) :
    (List.zipWith f l1 l2).getD i d = f (l1.getD i d1) (l2.getD i d2) := by
  rw [List.getD_eq_getElem?_getD, List.getElem?_zipWith',
    List.getElem?_eq_getElem h1, List.getElem?_eq_getElem h2,
    List.getD_eq_getElem?_getD, List.getD_eq_getElem?_getD,
    List.getElem?_eq_getElem h1, List.getElem?_eq_getElem h2]
  rfl

/-- C8: for N parameter sets, a shared log-wavelength grid of M points
and N velocities, `predict_spectra_with_rot_velocity` returns N rows of
M values, and row i is obtained by shifting the shared grid additively
by log10(1 + v_i/c) using velocity i alone and then evaluating the
velocity-free predictor for parameter set i over the shifted grid. -/
theorem predict_spectra_with_rot_velocity_rows (net : List ℝ → ℝ → ℝ)
    (ps : List (List ℝ)) (lws : List ℝ) (rvs : List ℝ) (i : ℕ)
    (hlen : ps.length = rvs.length) (hi : i < ps.length) :
    (SpecMLP.predict_spectra_with_rot_velocity net ps lws rvs).length = ps.length ∧
    ((SpecMLP.predict_spectra_with_rot_velocity net ps lws rvs).getD i []).length =
      lws.length ∧
    (SpecMLP.predict_spectra_with_rot_velocity net ps lws rvs).getD i [] =
      SpecMLP.predict_spectrum net (ps.getD i [])
        (lws.map (logDopplerShift (rvs.getD i 0))) := by
  have hi2 : i < rvs.length := hlen ▸ hi
  have hrow : (SpecMLP.predict_spectra_with_rot_velocity net ps lws rvs).getD i [] =
      SpecMLP.predict_spectrum net (ps.getD i [])
        (lws.map (logDopplerShift (rvs.getD i 0))) := by
    unfold SpecMLP.predict_spectra_with_rot_velocity
    rw [getD_zipWith _ ps rvs [] 0 [] i hi hi2]
    rfl
  refine ⟨?_, ?_, hrow⟩
  · unfold SpecMLP.predict_spectra_with_rot_velocity
    rw [List.length_zipWith, hlen, Nat.min_self]
  · rw [hrow]
    unfold SpecMLP.predict_spectrum
    rw [List.length_map, List.length_map]

/-- C8 witness: two parameter sets, a two-point shared grid and two
velocities, instantiated at row 1. -/
theorem predict_spectra_with_rot_velocity_rows_witness :
    (([[(1 : ℝ)], [2]] : List (List ℝ)).length = ([10, 20] : List ℝ).length ∧
      1 < ([[(1 : ℝ)], [2]] : List (List ℝ)).length) ∧
    ((SpecMLP.predict_spectra_with_rot_velocity netProj [[(1 : ℝ)], [2]]
        [(3 : ℝ), 4] [10, 20]).length = ([[(1 : ℝ)], [2]] : List (List ℝ)).length ∧
     ((SpecMLP.predict_spectra_with_rot_velocity netProj [[(1 : ℝ)], [2]]
        [(3 : ℝ), 4] [10, 20]).getD 1 []).length = ([(3 : ℝ), 4] : List ℝ).length ∧
     (SpecMLP.predict_spectra_with_rot_velocity netProj [[(1 : ℝ)], [2]]
        [(3 : ℝ), 4] [10, 20]).getD 1 [] =
       SpecMLP.predict_spectrum netProj (([[(1 : ℝ)], [2]] : List (List ℝ)).getD 1 [])
         (([(3 : ℝ), 4] : List ℝ).map
           (logDopplerShift (([10, 20] : List ℝ).getD 1 0)))) :=
  ⟨⟨rfl, by decide⟩,
   predict_spectra_with_rot_velocity_rows netProj [[(1 : ℝ)], [2]] [(3 : ℝ), 4]
     [10, 20] 1 rfl (by decide)⟩

/-- Helper: the i-th element of a map when i is within the list. -/
lemma getD_map {α β : Type} (f : α → β) (l : List α) (d1 : α) (d : β) (i : ℕ)
    (h : i < l.length) :
    (l.map f).getD i d = f (l.getD i d1) := by
  rw [List.getD_eq_getElem?_getD, List.getElem?_map, List.getElem?_eq_getElem h,
    List.getD_eq_getElem?_getD, List.getElem?_eq_getElem h]
  rfl

/-- C9: the function returned by `spectra_prediction_function` over
wave_min, wave_max and wave_points, applied to one star's scaled
parameters (tiled over the disk points, as the vmapped parameter axis
requires) and a rotation map of D velocities, yields D rows of
wave_points values, and row j is one minus the flux computed over the
fixed log-uniform grid between log10(wave_min) and log10(wave_max)
shifted by rotation velocity j; no summation across disk points is
performed. -/
theorem spectra_prediction_function_rows (net : List ℝ → ℝ → ℝ)
    (wave_min wave_max : ℝ) (wave_points : ℕ) (p : List ℝ) (rm : List ℝ)
    (j : ℕ) (hj : j < rm.length) :
    (SpecMLP.spectra_prediction_function net wave_min wave_max wave_points
        (List.replicate rm.length p) rm).length = rm.length ∧
    ((SpecMLP.spectra_prediction_function net wave_min wave_max wave_points
        (List.replicate rm.length p) rm).getD j []).length = wave_points ∧
    (SpecMLP.spectra_prediction_function net wave_min wave_max wave_points
        (List.replicate rm.length p) rm).getD j [] =
      (linspaceList (Real.logb 10 wave_min) (Real.logb 10 wave_max)
        wave_points).map
        (fun lw => 1 - net p (logDopplerShift (rm.getD j 0) lw)) := by
  have hrep : j < (List.replicate rm.length p).length := by
    rw [List.length_replicate]; exact hj
  have hgrep : (List.replicate rm.length p).getD j [] = p := by
    rw [List.getD_eq_getElem?_getD, List.getElem?_replicate]
    simp [hj]
  have hrow : (SpecMLP.spectra_prediction_function net wave_min wave_max
      wave_points (List.replicate rm.length p) rm).getD j [] =
      (linspaceList (Real.logb 10 wave_min) (Real.logb 10 wave_max)
        wave_points).map
        (fun lw => 1 - net p (logDopplerShift (rm.getD j 0) lw)) := by
    unfold SpecMLP.spectra_prediction_function
    rw [getD_map _ _ [] [] j (by
      rw [SpecMLP.predict_spectra_with_rot_velocity, List.length_zipWith,
        List.length_replicate, Nat.min_self]
      exact hj)]
    rw [SpecMLP.predict_spectra_with_rot_velocity,
      getD_zipWith _ _ rm [] 0 [] j hrep hj, hgrep]
    unfold SpecMLP.predict_spectrum_with_rot_velocity SpecMLP.predict_spectrum
    rw [List.map_map, List.map_map]
    rfl
  refine ⟨?_, ?_, hrow⟩
  · unfold SpecMLP.spectra_prediction_function
      SpecMLP.predict_spectra_with_rot_velocity
    rw [List.length_map, List.length_zipWith, List.length_replicate,
      Nat.min_self]
  · rw [hrow, List.length_map]
    unfold linspaceList
    rw [List.length_map, List.length_range]

/-- C9 witness: a two-point rotation map over a two-point grid for one
star with parameter vector of a single 1, instantiated at row 0. -/
theorem spectra_prediction_function_rows_witness :
    (0 < ([(0 : ℝ), 10] : List ℝ).length) ∧
    ((SpecMLP.spectra_prediction_function netProj 1 100 2
        (List.replicate ([(0 : ℝ), 10] : List ℝ).length [(1 : ℝ)])
        [(0 : ℝ), 10]).length = ([(0 : ℝ), 10] : List ℝ).length ∧
     ((SpecMLP.spectra_prediction_function netProj 1 100 2
        (List.replicate ([(0 : ℝ), 10] : List ℝ).length [(1 : ℝ)])
        [(0 : ℝ), 10]).getD 0 []).length = 2 ∧
     (SpecMLP.spectra_prediction_function netProj 1 100 2
        (List.replicate ([(0 : ℝ), 10] : List ℝ).length [(1 : ℝ)])
        [(0 : ℝ), 10]).getD 0 [] =
       (linspaceList (Real.logb 10 1) (Real.logb 10 100) 2).map
         (fun lw => 1 - netProj [(1 : ℝ)]
           (logDopplerShift (([(0 : ℝ), 10] : List ℝ).getD 0 0) lw))) :=
  ⟨by decide,
   spectra_prediction_function_rows netProj 1 100 2 [(1 : ℝ)] [(0 : ℝ), 10] 0
     (by decide)⟩

/-- C1 counterexample: `predict_spectra` of `spice/spectra.py` is
`vmap(predict_spectrum, in_axes=(0, 0))`, so the wavelengths argument is
batched along with the parameter sets instead of being one shared grid.
With two identical parameter sets and two different per-row grids the
two output rows differ; were each row the spectrum of its parameter set
over one shared grid, identical parameter sets would force identical
rows. -/
theorem spice_predict_spectra_not_shared_grid :
    (Spice.predict_spectra netProj [[], []] [[(1 : ℝ)], [10]]).getD 0 [] ≠
      (Spice.predict_spectra netProj [[], []] [[(1 : ℝ)], [10]]).getD 1 [] := by
  have h1 : Real.logb 10 1 = 0 := Real.logb_one
  have h10 : Real.logb 10 10 = 1 := Real.logb_self_eq_one (by norm_num)
  simp [Spice.predict_spectra, Spice.predict_spectrum,
    Spice.predictSpectrumCore, netProj, h1, h10]

/-- C1 (amended): `predict_spectra` of `spectrum_mlp.py`
(in_axes=(0, None)) over N parameter sets and one shared M-point grid
returns N rows of M values with row i the spectrum of parameter set i
over the shared grid, rows in input order with no dropped samples;
`predict_spectra` of `spice/spectra.py` (in_axes=(0, 0)) instead takes
one wavelength grid per parameter set, N grids zipped with the N
parameter sets, and row i is the spectrum of parameter set i over grid
i. -/
theorem predict_spectra_batch_semantics (net : List ℝ → ℝ → ℝ)
    (ps : List (List ℝ)) (lws : List ℝ) (wss : List (List ℝ)) (i : ℕ)
    (hlen : ps.length = wss.length) (hi : i < ps.length) :
    (SpecMLP.predict_spectra net ps lws).length = ps.length ∧
    ((SpecMLP.predict_spectra net ps lws).getD i []).length = lws.length ∧
    (SpecMLP.predict_spectra net ps lws).getD i [] =
      SpecMLP.predict_spectrum net (ps.getD i []) lws ∧
    (Spice.predict_spectra net ps wss).length = ps.length ∧
    (Spice.predict_spectra net ps wss).getD i [] =
      Spice.predict_spectrum net (ps.getD i []) (wss.getD i []) := by
  have hi2 : i < wss.length := hlen ▸ hi
  refine ⟨?_, ?_, ?_, ?_, ?_⟩
  · unfold SpecMLP.predict_spectra
    rw [List.length_map]
  · unfold SpecMLP.predict_spectra
    rw [getD_map _ _ [] [] i hi]
    unfold SpecMLP.predict_spectrum
    rw [List.length_map]
  · unfold SpecMLP.predict_spectra
    rw [getD_map _ _ [] [] i hi]
  · unfold Spice.predict_spectra
    rw [List.length_zipWith, hlen, Nat.min_self]
  · unfold Spice.predict_spectra
    rw [getD_zipWith _ ps wss [] [] [] i hi hi2]

/-- C1 witness: two parameter sets with a two-point shared log grid for
the spectrum_mlp variant and two per-row grids for the spice variant,
instantiated at row 1. -/
theorem predict_spectra_batch_semantics_witness :
    (([[(1 : ℝ)], [2]] : List (List ℝ)).length =
        ([[(5 : ℝ)], [6]] : List (List ℝ)).length ∧
      1 < ([[(1 : ℝ)], [2]] : List (List ℝ)).length) ∧
    ((SpecMLP.predict_spectra netProj [[(1 : ℝ)], [2]] [(3 : ℝ), 4]).length =
        ([[(1 : ℝ)], [2]] : List (List ℝ)).length ∧
     ((SpecMLP.predict_spectra netProj [[(1 : ℝ)], [2]] [(3 : ℝ), 4]).getD 1
        []).length = ([(3 : ℝ), 4] : List ℝ).length ∧
     (SpecMLP.predict_spectra netProj [[(1 : ℝ)], [2]] [(3 : ℝ), 4]).getD 1 [] =
       SpecMLP.predict_spectrum netProj
         (([[(1 : ℝ)], [2]] : List (List ℝ)).getD 1 []) [(3 : ℝ), 4] ∧
     (Spice.predict_spectra netProj [[(1 : ℝ)], [2]] [[(5 : ℝ)], [6]]).length =
        ([[(1 : ℝ)], [2]] : List (List ℝ)).length ∧
     (Spice.predict_spectra netProj [[(1 : ℝ)], [2]] [[(5 : ℝ)], [6]]).getD 1 [] =
       Spice.predict_spectrum netProj
         (([[(1 : ℝ)], [2]] : List (List ℝ)).getD 1 [])
         (([[(5 : ℝ)], [6]] : List (List ℝ)).getD 1 [])) :=
  ⟨⟨rfl, by decide⟩,
   predict_spectra_batch_semantics netProj [[(1 : ℝ)], [2]] [(3 : ℝ), 4]
     [[(5 : ℝ)], [6]] 1 rfl (by decide)⟩

/-- C2 counterexample: `predict_spectrum` of `spectrum_mlp.py` does not
log-transform its wavelength argument: feeding the value 10 to it under
the network that returns its wavelength input yields 10, not
log10(10) = 1 as the log-transforming `spice` entry point produces. -/
theorem mlp_predict_spectrum_no_log_transform :
    SpecMLP.predict_spectrum netProj [] [(10 : ℝ)] ≠
      Spice.predict_spectrum netProj [] [(10 : ℝ)] := by
  have h10 : Real.logb 10 10 = 1 := Real.logb_self_eq_one (by norm_num)
  simp [SpecMLP.predict_spectrum, Spice.predict_spectrum,
    Spice.predictSpectrumCore, netProj, h10]

/-- C2 (amended): `predict_spectrum` of `spice/spectra.py` takes base-10
logs of each supplied wavelength before the network evaluates it, so its
caller supplies linear angstrom wavelengths; `predict_spectrum` of
`spectrum_mlp.py` passes its wavelength argument to the network
untransformed, so its callers supply log-wavelengths. -/
theorem predict_spectrum_wavelength_handling (net : List ℝ → ℝ → ℝ)
    (p : List ℝ) (ws : List ℝ) (i : ℕ) (hi : i < ws.length) :
    (Spice.predict_spectrum net p ws).length = ws.length ∧
    (Spice.predict_spectrum net p ws).getD i 0 =
      net p (Real.logb 10 (ws.getD i 0)) ∧
    (SpecMLP.predict_spectrum net p ws).length = ws.length ∧
    (SpecMLP.predict_spectrum net p ws).getD i 0 = net p (ws.getD i 0) := by
  refine ⟨?_, ?_, ?_, ?_⟩
  · unfold Spice.predict_spectrum Spice.predictSpectrumCore
    rw [List.length_map, List.length_map]
  · unfold Spice.predict_spectrum Spice.predictSpectrumCore
    rw [List.map_map, getD_map _ _ 0 0 i hi]
    rfl
  · unfold SpecMLP.predict_spectrum
    rw [List.length_map]
  · unfold SpecMLP.predict_spectrum
    rw [getD_map _ _ 0 0 i hi]

/-- C2 witness: both entry points at the single wavelength value 10
(an angstrom wavelength for spice, a log-wavelength for spectrum_mlp). -/
theorem predict_spectrum_wavelength_handling_witness :
    (0 < ([(10 : ℝ)] : List ℝ).length) ∧
    ((Spice.predict_spectrum netProj [] [(10 : ℝ)]).length =
        ([(10 : ℝ)] : List ℝ).length ∧
     (Spice.predict_spectrum netProj [] [(10 : ℝ)]).getD 0 0 =
       netProj [] (Real.logb 10 (([(10 : ℝ)] : List ℝ).getD 0 0)) ∧
     (SpecMLP.predict_spectrum netProj [] [(10 : ℝ)]).length =
        ([(10 : ℝ)] : List ℝ).length ∧
     (SpecMLP.predict_spectrum netProj [] [(10 : ℝ)]).getD 0 0 =
       netProj [] (([(10 : ℝ)] : List ℝ).getD 0 0)) :=
  ⟨by decide,
   predict_spectrum_wavelength_handling netProj [] [(10 : ℝ)] 0 (by decide)⟩

/-- C10 witness: for element Fe the slot of Mn (j = 0, stored at
position 4 of the scaled vector) is exactly 1/2. -/
theorem generate_overabundance_params_unselected_slots_witness :
    ("Fe" ∈ OVERABUNDANCES) ∧ (0 < 8) ∧ (0 ≠ OVERABUNDANCES.indexOf "Fe") ∧
    ((generate_spectrum_overabundance_params 7500 4 2 (-1/2) 2 "Fe").toOption.getD
      []).getD 4 0 = 0.5 :=
  ⟨by decide, by decide, by decide,
   generate_overabundance_params_unselected_slots 7500 4 2 (-1/2) 2 "Fe" 0
     (by decide) (by decide) (by decide)⟩

end
